import Mathlib

/-!
Shallow embedding of the Monitor-and-Broadcast subsystem of
`src/calhackproj/src-tauri/src/lib.rs`.

The monitor loop (`monitor_muse_metrics`) together with `handle_muse_failure`
is modelled as a transition function on an explicit state record.  One loop
iteration is abstracted into a `Signal`: either a successful metrics fetch
(carrying the snapshot's raw attention label and the current monotonic time in
milliseconds) or a failure (covering "API not found", parse failure, bad
status and transport error — all of which call `handle_muse_failure`).

Machine integers (`u32` counters) are modelled as `Nat` reduced modulo `2^32`
at each increment, matching release-mode wrapping arithmetic.  `Instant` is a
`Nat` of milliseconds; `Duration::as_secs() >= 2` becomes
`(now - t) / 1000 ≥ 2`.  The `timestamp` field of `DuckMessage` is a
wall-clock RFC3339 string irrelevant to every claim and is omitted from the
record.  Emission to the Tauri frontend and to the WebSocket broadcast channel
always happen together with the same message, so a step produces a single
list of emitted events.
-/

/-- Rust `DuckMessage` from lib.rs (timestamp omitted, see module comment). -/
structure DuckMessage where
  message : String
  msg_type : String
  focus_state : Option String
deriving DecidableEq, Repr

/-- Rust `ServiceStatus` from lib.rs. -/
structure ServiceStatus where
  http_server : Bool
  websocket_server : Bool
  extension_connected : Bool
  messages_received : Nat
  muse_connected : Bool
deriving DecidableEq, Repr

/-- The mutable state threaded through the monitor loop: the `AppState`
fields the monitor touches (`muse_connected`, `consecutive_failures`,
`last_focus_state`, `last_state_change`, `message_count`) plus the loop-local
`last_connection_message_sent` flag (here `notified`). -/
structure MonitorState where
  connected : Bool
  failures : Nat
  notified : Bool
  last_focus_state : Option String
  last_state_change : Option Nat
  message_count : Nat
deriving DecidableEq, Repr

/-- Initial state set up in `start_servers` (all counters zero, flags false,
options `None`; `last_connection_message_sent` starts `false`). -/
def initState : MonitorState :=
  { connected := false, failures := 0, notified := false,
    last_focus_state := none, last_state_change := none, message_count := 0 }

/-- One loop iteration's input: a successful snapshot fetch (raw attention
label, current time in ms) or any failure outcome. -/
inductive Signal where
  | success (label : String) (now : Nat)
  | failure
deriving DecidableEq, Repr

def u32mod (n : Nat) : Nat := n % 2 ^ 32

/-- The "EEG Disconnected" `connection_status` message built in
`handle_muse_failure`. -/
def disconnMsg : DuckMessage :=
  { message := "EEG Disconnected - Please connect your Muse headset",
    msg_type := "connection_status", focus_state := none }

/-- The "EEG Connected" `connection_status` message built in
`monitor_muse_metrics` on reconnection. -/
def connMsg : DuckMessage :=
  { message := "EEG Connected", msg_type := "connection_status",
    focus_state := none }

/-- Rust `handle_muse_failure` (lib.rs lines 368–402): increment the failure
counter; if it reaches 5 while connected, transition to disconnected, clear
the notified flag and both focus-debounce fields; then, if disconnected and
not yet notified, emit the disconnected message once and set the flag. -/
def handle_muse_failure (s : MonitorState) : MonitorState × List DuckMessage :=
  let failures := u32mod (s.failures + 1)
  let s₁ :=
    if failures ≥ 5 && s.connected then
      { s with
          failures := failures
          connected := false
          notified := false
          last_focus_state := none
          last_state_change := none }
    else
      { s with failures := failures }
  if !s₁.connected && !s₁.notified then
    ({ s₁ with notified := true }, [disconnMsg])
  else
    (s₁, [])

/-- Predicate `substrAt pat s`: does `pat` occur at the very start of `s`?  Models the
anchored part of Rust `str::contains`. -/
def substrAt : List Char → List Char → Bool
  | [], _ => true
  | _ :: _, [] => false
  | p :: ps, c :: cs => p == c && substrAt ps cs

/-- Predicate `containsSubList pat s`: does `pat` occur contiguously anywhere in `s`?
Models Rust `str::contains` with a string pattern. -/
def containsSubList (pat : List Char) : List Char → Bool
  | [] => substrAt pat []
  | c :: t => substrAt pat (c :: t) || containsSubList pat t

/-- Rust `to_lowercase()` on the underlying character list (`Char.toLower`
lowercases ASCII letters; the attention labels involved are ASCII, where the
two functions agree). -/
def lowerChars (s : String) : List Char :=
  s.data.map Char.toLower

/-- The coarse focus label derivation from `monitor_muse_metrics`
(lines 296–301): lowercase the raw label; if it contains "unfocused" or
"low", the coarse label is "unfocused", otherwise "focused". -/
def coarseFocusLabel (current_state : String) : String :=
  if containsSubList "unfocused".data (lowerChars current_state)
      || containsSubList "low".data (lowerChars current_state) then
    "unfocused"
  else
    "focused"

/-- The human message attached to a focus_state_change event
(lines 305–309). -/
def focusMessageText (focus_state : String) : String :=
  if focus_state = "unfocused" then
    "⚠️ Distraction detected! Duck spawned."
  else
    "✅ Focus restored!"

/-- The focus_state_change `DuckMessage` emitted for a raw label. -/
def focusMsg (current_state : String) : DuckMessage :=
  { message := focusMessageText (coarseFocusLabel current_state),
    msg_type := "focus_state_change",
    focus_state := some (coarseFocusLabel current_state) }

/-- The success branch of `monitor_muse_metrics` (lines 240–346): mark
connected (emitting the connected message on the transition, resetting the
failure counter and the notified flag), then run the focus debouncer: a
changed label records the label and (re)starts the 2 s window; an unchanged
label with an open window of age ≥ 2 s emits the focus_state_change message,
bumps the message counter and clears the window. -/
def handle_muse_success (s : MonitorState) (label : String) (now : Nat) :
    MonitorState × List DuckMessage :=
  let (s₁, connEvents) :=
    if !s.connected then
      ({ s with connected := true, failures := 0, notified := false },
       [connMsg])
    else
      (s, ([] : List DuckMessage))
  let state_changed :=
    match s₁.last_focus_state with
    | some prev => prev != label
    | none => true
  if state_changed then
    ({ s₁ with last_focus_state := some label, last_state_change := some now },
     connEvents)
  else
    match s₁.last_state_change with
    | some change_time =>
      if (now - change_time) / 1000 ≥ 2 then
        ({ s₁ with
            last_state_change := none
            message_count := u32mod (s₁.message_count + 1) },
         connEvents ++ [focusMsg label])
      else
        (s₁, connEvents)
    | none => (s₁, connEvents)

/-- One iteration of the monitor loop, dispatching on the cycle's outcome. -/
def monitorStep (s : MonitorState) : Signal → MonitorState × List DuckMessage
  | .success label now => handle_muse_success s label now
  | .failure => handle_muse_failure s

/-- Run the monitor over a sequence of signals, accumulating all emitted
events in order. -/
def monitorRun (s : MonitorState) : List Signal → MonitorState × List DuckMessage
  | [] => (s, [])
  | sig :: rest =>
    let (s₁, evs) := monitorStep s sig
    let (s₂, evs₂) := monitorRun s₁ rest
    (s₂, evs ++ evs₂)

/-- Rust `receive_message` (lib.rs lines 81–105): the HTTP `/api/message` handler
increments the message counter and broadcasts the received message to the
frontend and the WebSocket subscribers. -/
def receive_message (s : MonitorState) (message : DuckMessage) :
    MonitorState × List DuckMessage :=
  ({ s with message_count := u32mod (s.message_count + 1) },
   [message])

/-- The two greeting messages a fresh WebSocket client receives in
`handle_websocket` (lines 122–156): the welcome message and the current EEG
connection status.  The handler reads `muse_connected` but mutates no
monitor state. -/
def websocketGreeting (is_connected : Bool) : List DuckMessage :=
  [{ message := "Connected to Duck Controller!", msg_type := "connection",
     focus_state := none },
   if is_connected then connMsg else disconnMsg]

/-- Rust `get_service_status` (lib.rs lines 67–78): reads the counter and the
connected flag and reports constants for the server fields; the returned
second component is the (unchanged) state, reflecting that the command only
reads. `receiver_count` is the broadcast channel's current subscriber
count. -/
def get_service_status (s : MonitorState) (receiver_count : Nat) :
    ServiceStatus × MonitorState :=
  ({ http_server := true
     websocket_server := true
     extension_connected := decide (receiver_count > 0)
     messages_received := s.message_count
     muse_connected := s.connected }, s)

/-- Outcome of one HTTP probe in `discover_muse_port`: `Ok` response carrying
whether `status().is_success()`, or a transport error. -/
inductive ProbeOutcome where
  | ok (success_status : Bool)
  | err
deriving DecidableEq, Repr

/-- The fixed candidate port list `MUSE_API_PORTS` (lib.rs line 16). -/
def MUSE_API_PORTS : List Nat := [5000, 5001, 5002, 5003, 5004, 5005]

/-- Does a probe outcome count as a success status? -/
def probeOk (r : ProbeOutcome) : Bool :=
  match r with
  | .ok true => true
  | _ => false

/-- The loop body of `discover_muse_port` (lib.rs lines 195–214) over an
explicit candidate list, also returning the log of ports actually probed
(one entry per issued request): probe candidates in order, stop at the first
success status; `Ok` with non-success status and transport errors both fall
through to the next candidate. -/
def discoverLoop (resp : Nat → ProbeOutcome) : List Nat → Option Nat × List Nat
  | [] => (none, [])
  | p :: ps =>
    match resp p with
    | .ok true => (some p, [p])
    | _ =>
      let rest := discoverLoop resp ps
      (rest.1, p :: rest.2)

/-- Rust `discover_muse_port`, probing the fixed candidate list.  `resp` is the
environment: what each port answers. -/
def discover_muse_port (resp : Nat → ProbeOutcome) : Option Nat × List Nat :=
  discoverLoop resp MUSE_API_PORTS

/-- Modelled from the spec: the Event Broadcaster's per-subscriber buffer
semantics live in the tokio `broadcast` channel dependency, whose internals
are not part of this repository's sources.  Per the spec it is a bounded
ring buffer with drop-oldest on overflow: publishing appends the event and
keeps only the newest `cap` entries, so the producer never blocks. -/
def publish (cap : Nat) (buf : List DuckMessage) (e : DuckMessage) :
    List DuckMessage :=
  let b := buf ++ [e]
  b.drop (b.length - cap)

/-- Publish a sequence of events to one subscriber's buffer in order. -/
def publishAll (cap : Nat) (buf : List DuckMessage) (es : List DuckMessage) :
    List DuckMessage :=
  es.foldl (publish cap) buf

/-- Modelled from the spec: `subscribe()` returns a fresh buffer that has
seen nothing published before the subscription. -/
def subscribeBuffer : List DuckMessage := []

/-- The capacity passed to `broadcast::channel` in `start_servers`
(lib.rs line 436). -/
def BROADCAST_CAPACITY : Nat := 100

/-- Mathematical (Prop-level) reading of "pat occurs in the character list l
as a contiguous substring", used to state what Rust `str::contains`
decides. -/
def IsSubstrP (pat : String) (l : List Char) : Prop :=
  ∃ p q : List Char, l = p ++ pat.data ++ q

/-- Events that are the disconnected notification. -/
def isDisconnEvent (m : DuckMessage) : Bool := m == disconnMsg

/-- Events of kind connection_status (connected/disconnected notifications). -/
def isConnStatusEvent (m : DuckMessage) : Bool := m.msg_type == "connection_status"

/-- Events of kind focus_state_change. -/
def isFocusEvent (m : DuckMessage) : Bool := m.msg_type == "focus_state_change"

lemma handle_muse_failure_spec (s : MonitorState) :
    handle_muse_failure s =
      if 5 ≤ u32mod (s.failures + 1) ∧ s.connected = true then
        ({ s with
            failures := u32mod (s.failures + 1)
            connected := false
            notified := true
            last_focus_state := none
            last_state_change := none }, [disconnMsg])
      else if s.connected = false ∧ s.notified = false then
        ({ s with
            failures := u32mod (s.failures + 1)
            notified := true }, [disconnMsg])
      else
        ({ s with failures := u32mod (s.failures + 1) }, []) := by
  by_cases h5 : 5 ≤ u32mod (s.failures + 1) <;>
    cases hc : s.connected <;> cases hn : s.notified <;>
      simp [handle_muse_failure, h5, hc, hn]

lemma handle_muse_success_eq (s : MonitorState) (label : String) (now : Nat) :
    handle_muse_success s label now =
      (let s₁ : MonitorState := if s.connected then s else
         { s with connected := true, failures := 0, notified := false };
       let ce : List DuckMessage := if s.connected then [] else [connMsg];
       if s.last_focus_state ≠ some label then
         ({ s₁ with last_focus_state := some label, last_state_change := some now }, ce)
       else
         match s.last_state_change with
         | some c =>
           if 2 ≤ (now - c) / 1000 then
             ({ s₁ with
                 last_state_change := none
                 message_count := u32mod (s₁.message_count + 1) },
              ce ++ [focusMsg label])
           else (s₁, ce)
         | none => (s₁, ce)) := by
  cases hc : s.connected <;> cases hl : s.last_focus_state <;>
    cases hch : s.last_state_change <;>
      simp [handle_muse_success, hc, hl, hch]

/-- C1 counterexample: from the initial state (Disconnected, not yet
notified), a failure run of length one already emits the disconnected
Event, refuting the claim that no failure run shorter than 5 — at startup
in particular — produces a disconnected Event. -/
theorem C1_counterexample :
    (monitorRun initState [Signal.failure]).2 = [disconnMsg] := by
  decide

lemma monitorRun_replicate_fail_connected (s : MonitorState) (n : Nat)
    (hc : s.connected = true) (hf : s.failures = 0) (hn : n < 5) :
    (monitorRun s (List.replicate n Signal.failure)).2 = [] := by
  interval_cases n <;>
    simp [monitorRun, monitorStep, handle_muse_failure_spec, u32mod, hc, hf, List.replicate]

lemma monitorRun_append (s : MonitorState) (l₁ l₂ : List Signal) :
    monitorRun s (l₁ ++ l₂) =
      ((monitorRun (monitorRun s l₁).1 l₂).1,
       (monitorRun s l₁).2 ++ (monitorRun (monitorRun s l₁).1 l₂).2) := by
  induction l₁ generalizing s with
  | nil => simp [monitorRun]
  | cons sig rest ih => simp [monitorRun, ih]

lemma monitorRun_fail_absorbed (n : Nat) :
    ∀ s : MonitorState, s.connected = false → s.notified = true →
      (monitorRun s (List.replicate n Signal.failure)).2 = [] ∧
      (monitorRun s (List.replicate n Signal.failure)).1.connected = false ∧
      (monitorRun s (List.replicate n Signal.failure)).1.notified = true := by
  induction n with
  | zero => intro s hc hn; simp [monitorRun, hc, hn]
  | succ m ih =>
    intro s hc hn
    have hstep : monitorStep s Signal.failure =
        ({ s with failures := u32mod (s.failures + 1) }, []) := by
      simp [monitorStep, handle_muse_failure_spec, hc, hn]
    simp [List.replicate, monitorRun, hstep]
    exact ih _ (by simp [hc]) (by simp [hn])

lemma monitorRun_fail_disconnect (s : MonitorState) (n : Nat)
    (hc : s.connected = true) (hf : s.failures ≤ 4) (hn : 5 - s.failures ≤ n) :
    (monitorRun s (List.replicate n Signal.failure)).2 = [disconnMsg] ∧
    (monitorRun s (List.replicate n Signal.failure)).1.connected = false ∧
    (monitorRun s (List.replicate n Signal.failure)).1.notified = true := by
  have hsplit : n = (5 - s.failures) + (n - (5 - s.failures)) :=
    (Nat.add_sub_cancel' hn).symm
  have hfirst : (monitorRun s (List.replicate (5 - s.failures) Signal.failure)).2 = [disconnMsg] ∧
      (monitorRun s (List.replicate (5 - s.failures) Signal.failure)).1.connected = false ∧
      (monitorRun s (List.replicate (5 - s.failures) Signal.failure)).1.notified = true := by
    obtain ⟨c, f, no, lf, lc, mc⟩ := s
    simp only at hc hf ⊢
    subst hc
    interval_cases f <;>
      simp [monitorRun, monitorStep, handle_muse_failure_spec, u32mod, List.replicate]
  rw [hsplit, List.replicate_add, monitorRun_append]
  have habs := monitorRun_fail_absorbed (n - (5 - s.failures))
    (monitorRun s (List.replicate (5 - s.failures) Signal.failure)).1
    hfirst.2.1 hfirst.2.2
  simp [hfirst.1, habs.1, habs.2.1, habs.2.2]

/-- C1 (amended): a failure signal emits the disconnected Event exactly
when either the monitor is Connected and the incremented failure counter —
which successes while Connected do not reset — reaches 5, or the monitor is
already Disconnected with the notification still pending (as in the initial
state); a failure run shorter than 5 starting immediately after a
reconnection (Connected, counter 0) emits nothing. -/
theorem C1_disconnected_gating :
    (∀ s : MonitorState,
       (monitorStep s Signal.failure).2 = [disconnMsg] ↔
         ((s.connected = true ∧ 5 ≤ u32mod (s.failures + 1)) ∨
          (s.connected = false ∧ s.notified = false))) ∧
    (∀ s : MonitorState, ∀ n : Nat, s.connected = true → s.failures = 0 → n < 5 →
       (monitorRun s (List.replicate n Signal.failure)).2 = []) := by
  constructor
  · intro s
    by_cases h5 : 5 ≤ u32mod (s.failures + 1) <;>
      cases hc : s.connected <;> cases hn : s.notified <;>
        simp [monitorStep, handle_muse_failure_spec, h5, hc, hn, disconnMsg]
  · exact fun s n => monitorRun_replicate_fail_connected s n

theorem C1_gating_witness :
    (monitorStep initState Signal.failure).2 = [disconnMsg] ∧
    (monitorRun { initState with connected := true }
        (List.replicate 4 Signal.failure)).2 = [] :=
  ⟨(C1_disconnected_gating.1 initState).mpr (Or.inr ⟨rfl, rfl⟩),
   C1_disconnected_gating.2 { initState with connected := true } 4 rfl rfl (by decide)⟩

/-- C2: within one disconnection episode (entered from Connected with at
most 4 accumulated failures) exactly one disconnected Event is emitted no
matter how many further failures follow; the notified flag is true after
any failure step that emitted, stays true across further failures, and is
reset to false exactly by a success while Disconnected (reconnection),
while a success while Connected leaves it unchanged. -/
theorem C2_single_notification :
    (∀ s : MonitorState, ∀ n : Nat,
       s.connected = true → s.failures ≤ 4 → 5 - s.failures ≤ n →
         ((monitorRun s (List.replicate n Signal.failure)).2.count disconnMsg = 1 ∧
          (monitorRun s (List.replicate n Signal.failure)).1.notified = true)) ∧
    (∀ s : MonitorState, (monitorStep s Signal.failure).2 ≠ [] →
       (monitorStep s Signal.failure).1.notified = true) ∧
    (∀ s : MonitorState, ∀ label : String, ∀ now : Nat, s.connected = false →
       (monitorStep s (Signal.success label now)).1.notified = false) ∧
    (∀ s : MonitorState, ∀ label : String, ∀ now : Nat, s.connected = true →
       (monitorStep s (Signal.success label now)).1.notified = s.notified) ∧
    (∀ s : MonitorState, s.notified = true →
       (monitorStep s Signal.failure).1.notified = true) := by
  refine ⟨?_, ?_, ?_, ?_, ?_⟩
  · intro s n hc hf hn
    have h := monitorRun_fail_disconnect s n hc hf hn
    exact ⟨by simp [h.1], h.2.2⟩
  · intro s h
    by_cases h5 : 5 ≤ u32mod (s.failures + 1) <;>
      cases hc : s.connected <;> cases hn : s.notified <;>
        simp [monitorStep, handle_muse_failure_spec, h5, hc, hn] at h ⊢
  · intro s label now hc
    simp only [monitorStep, handle_muse_success_eq, hc]
    by_cases hl : s.last_focus_state ≠ some label
    · simp [hl]
    · rcases hch : s.last_state_change with _ | c
      · simp [hl, hch]
      · by_cases ht : 2 ≤ (now - c) / 1000 <;> simp [hl, hch, ht]
  · intro s label now hc
    simp only [monitorStep, handle_muse_success_eq, hc]
    by_cases hl : s.last_focus_state ≠ some label
    · simp [hl]
    · rcases hch : s.last_state_change with _ | c
      · simp [hl, hch]
      · by_cases ht : 2 ≤ (now - c) / 1000 <;> simp [hl, hch, ht]
  · intro s hn
    by_cases h5 : 5 ≤ u32mod (s.failures + 1) <;>
      cases hc : s.connected <;>
        simp [monitorStep, handle_muse_failure_spec, h5, hc, hn]

theorem C2_witness :
    ((monitorRun { initState with connected := true }
        (List.replicate 7 Signal.failure)).2.count disconnMsg = 1) ∧
    (monitorStep initState Signal.failure).1.notified = true ∧
    (monitorStep { initState with notified := true }
        (Signal.success "High" 3)).1.notified = false ∧
    (monitorStep { initState with connected := true, notified := true }
        (Signal.success "High" 3)).1.notified = true ∧
    (monitorStep { initState with notified := true } Signal.failure).1.notified = true :=
  ⟨(C2_single_notification.1 _ 7 rfl (by decide) (by decide)).1,
   C2_single_notification.2.1 initState (by decide),
   C2_single_notification.2.2.1 _ "High" 3 rfl,
   by simpa using C2_single_notification.2.2.2.1 { initState with connected := true, notified := true } "High" 3 rfl,
   C2_single_notification.2.2.2.2 _ rfl⟩

lemma step_success_stable (s : MonitorState) (label : String) (t : Nat)
    (hc : s.connected = true) (hl : s.last_focus_state = some label)
    (hch : s.last_state_change = none) :
    monitorStep s (Signal.success label t) = (s, []) := by
  simp [monitorStep, handle_muse_success_eq, hc, hl, hch]

lemma run_success_stable (label : String) : ∀ ts : List Nat, ∀ s : MonitorState,
    s.connected = true → s.last_focus_state = some label →
    s.last_state_change = none →
    monitorRun s (ts.map fun t => Signal.success label t) = (s, []) := by
  intro ts
  induction ts with
  | nil => intro s _ _ _; simp [monitorRun]
  | cons t rest ih =>
    intro s hc hl hch
    simp [monitorRun, step_success_stable s label t hc hl hch, ih s hc hl hch]

/-- C3: a successful snapshot emits a focus_state_change Event iff its raw
label equals the recorded `last_focus_state`, the `last_state_change` timer
is set, and at least 2 seconds have elapsed; the emission clears the timer
so no further focus event fires while the label stays constant, and a
differing label merely restarts the window without emitting. -/
theorem C3_focus_debounce :
    ∀ (s : MonitorState) (label : String) (now : Nat),
      (((monitorStep s (Signal.success label now)).2.countP isFocusEvent ≠ 0) ↔
        (s.last_focus_state = some label ∧
         ∃ c, s.last_state_change = some c ∧ 2 ≤ (now - c) / 1000)) ∧
      ((s.last_focus_state = some label ∧
         ∃ c, s.last_state_change = some c ∧ 2 ≤ (now - c) / 1000) →
        ((monitorStep s (Signal.success label now)).1.last_state_change = none ∧
         ∀ ts : List Nat,
           (monitorRun (monitorStep s (Signal.success label now)).1
             (ts.map fun t => Signal.success label t)).2.countP isFocusEvent = 0)) ∧
      (s.last_focus_state ≠ some label →
        ((monitorStep s (Signal.success label now)).2.countP isFocusEvent = 0 ∧
         (monitorStep s (Signal.success label now)).1.last_state_change = some now ∧
         (monitorStep s (Signal.success label now)).1.last_focus_state = some label)) := by
  intro s label now
  refine ⟨?_, ?_, ?_⟩
  · by_cases hl : s.last_focus_state = some label
    · rcases hch : s.last_state_change with _ | c
      · cases hc : s.connected <;>
          simp [monitorStep, handle_muse_success_eq, hc, hl, hch, isFocusEvent, connMsg]
      · by_cases ht : 2 ≤ (now - c) / 1000 <;> cases hc : s.connected <;>
          simp [monitorStep, handle_muse_success_eq, hc, hl, hch, ht, isFocusEvent,
                connMsg, focusMsg]
    · cases hc : s.connected <;>
        simp [monitorStep, handle_muse_success_eq, hc, hl, isFocusEvent, connMsg]
  · rintro ⟨hl, c, hch, ht⟩
    have hstep : (monitorStep s (Signal.success label now)).1.connected = true ∧
        (monitorStep s (Signal.success label now)).1.last_focus_state = some label ∧
        (monitorStep s (Signal.success label now)).1.last_state_change = none := by
      cases hc : s.connected <;>
        simp [monitorStep, handle_muse_success_eq, hc, hl, hch, ht]
    refine ⟨hstep.2.2, ?_⟩
    intro ts
    simp [run_success_stable label ts _ hstep.1 hstep.2.1 hstep.2.2]
  · intro hl
    cases hc : s.connected <;>
      simp [monitorStep, handle_muse_success_eq, hc, hl, isFocusEvent, connMsg]

theorem C3_witness :
    ((monitorStep { initState with
        connected := true
        last_focus_state := some "Low"
        last_state_change := some 100 } (Signal.success "Low" 2200)).2.countP
          isFocusEvent ≠ 0) ∧
    ((monitorStep { initState with
        connected := true
        last_focus_state := some "Low"
        last_state_change := some 100 } (Signal.success "Low" 2200)).1.last_state_change
          = none) ∧
    ((monitorStep { initState with
        connected := true
        last_focus_state := some "Medium" } (Signal.success "Low" 100)).2.countP
          isFocusEvent = 0) := by
  have h := C3_focus_debounce { initState with
      connected := true
      last_focus_state := some "Low"
      last_state_change := some 100 } "Low" 2200
  have h2 := C3_focus_debounce { initState with
      connected := true
      last_focus_state := some "Medium" } "Low" 100
  refine ⟨h.1.mpr ⟨rfl, 100, rfl, by decide⟩,
          (h.2.1 ⟨rfl, 100, rfl, by decide⟩).1,
          (h2.2.2 (by decide)).1⟩

/-- C4: processing a failure signal clears both focus-debounce fields exactly
when the signal is the disconnection transition (the incremented failure
counter reaches 5 while currently Connected); on every other failure signal
both fields are left unchanged. -/
theorem C4_failure_frame :
    ∀ s : MonitorState,
      ((5 ≤ u32mod (s.failures + 1) ∧ s.connected = true) →
        ((monitorStep s Signal.failure).1.last_focus_state = none ∧
         (monitorStep s Signal.failure).1.last_state_change = none)) ∧
      (¬(5 ≤ u32mod (s.failures + 1) ∧ s.connected = true) →
        ((monitorStep s Signal.failure).1.last_focus_state = s.last_focus_state ∧
         (monitorStep s Signal.failure).1.last_state_change = s.last_state_change)) := by
  intro s
  constructor
  · rintro ⟨h5, hc⟩
    simp [monitorStep, handle_muse_failure_spec, h5, hc]
  · intro h
    by_cases hcn : s.connected = false ∧ s.notified = false <;>
      simp [monitorStep, handle_muse_failure_spec, h, hcn]

theorem C4_failure_frame_witness :
    ((monitorStep { initState with
        connected := true
        failures := 4
        last_focus_state := some "Low"
        last_state_change := some 7 } Signal.failure).1.last_focus_state = none) ∧
    ((monitorStep { initState with
        connected := true
        failures := 1
        last_focus_state := some "Low"
        last_state_change := some 7 } Signal.failure).1.last_state_change = some 7) :=
  ⟨(C4_failure_frame { initState with
      connected := true
      failures := 4
      last_focus_state := some "Low"
      last_state_change := some 7 }).1 ⟨by decide, rfl⟩ |>.1,
   (C4_failure_frame { initState with
      connected := true
      failures := 1
      last_focus_state := some "Low"
      last_state_change := some 7 }).2 (by decide) |>.2⟩

/-- C6: a success signal while Disconnected sets connected, zeroes the
failure counter and emits exactly one connection_status event, the
"EEG Connected" message; a success signal while Connected leaves the
connectivity state (including the failure counter) unchanged and emits no
connection_status event. -/
theorem C6_connect_transition :
    ∀ (s : MonitorState) (label : String) (now : Nat),
      (s.connected = false →
        ((monitorStep s (Signal.success label now)).1.connected = true ∧
         (monitorStep s (Signal.success label now)).1.failures = 0 ∧
         (monitorStep s (Signal.success label now)).2.filter isConnStatusEvent
           = [connMsg])) ∧
      (s.connected = true →
        ((monitorStep s (Signal.success label now)).1.connected = true ∧
         (monitorStep s (Signal.success label now)).1.failures = s.failures ∧
         (monitorStep s (Signal.success label now)).2.filter isConnStatusEvent
           = [])) := by
  intro s label now
  constructor <;> intro hc <;>
  · by_cases hl : s.last_focus_state = some label
    · rcases hch : s.last_state_change with _ | c
      · simp [monitorStep, handle_muse_success_eq, hc, hl, hch,
              isConnStatusEvent, connMsg, focusMsg]
      · by_cases ht : 2 ≤ (now - c) / 1000 <;>
          simp [monitorStep, handle_muse_success_eq, hc, hl, hch, ht,
                isConnStatusEvent, connMsg, focusMsg]
    · simp [monitorStep, handle_muse_success_eq, hc, hl,
            isConnStatusEvent, connMsg, focusMsg]

theorem C6_connect_transition_witness :
    ((monitorStep initState (Signal.success "High" 0)).1.connected = true) ∧
    ((monitorStep initState (Signal.success "High" 0)).2.filter isConnStatusEvent
       = [connMsg]) ∧
    ((monitorStep { initState with connected := true, failures := 3 }
        (Signal.success "High" 0)).2.filter isConnStatusEvent = []) :=
  ⟨((C6_connect_transition initState "High" 0).1 rfl).1,
   ((C6_connect_transition initState "High" 0).1 rfl).2.2,
   ((C6_connect_transition { initState with connected := true, failures := 3 }
      "High" 0).2 rfl).2.2⟩

/-- C9: the monitor's message counter changes in a step exactly when the
step emits a focus_state_change event (then by one), never for connection or
connection_status events; the `/api/message` handler always increments it by
one; the WebSocket greeting consists only of connection/connection_status
messages and involves no counter at all. -/
theorem C9_message_counter :
    (∀ (s : MonitorState) (sig : Signal),
       (monitorStep s sig).1.message_count =
         (if (monitorStep s sig).2.countP isFocusEvent = 0 then s.message_count
          else u32mod (s.message_count + 1))) ∧
    (∀ (s : MonitorState) (m : DuckMessage),
       (receive_message s m).1.message_count = u32mod (s.message_count + 1)) ∧
    (∀ b : Bool, (websocketGreeting b).countP isFocusEvent = 0) := by
  refine ⟨?_, ?_, ?_⟩
  · intro s sig
    cases sig with
    | failure =>
      cases hc : s.connected <;> cases hn : s.notified <;>
        by_cases h5 : 5 ≤ u32mod (s.failures + 1) <;>
          simp [monitorStep, handle_muse_failure_spec, isFocusEvent, disconnMsg,
                hc, hn, h5]
    | success label now =>
      by_cases hl : s.last_focus_state = some label
      · rcases hch : s.last_state_change with _ | c
        · cases hc : s.connected <;>
            simp [monitorStep, handle_muse_success_eq, hc, hl, hch,
                  isFocusEvent, connMsg]
        · by_cases ht : 2 ≤ (now - c) / 1000 <;> cases hc : s.connected <;>
            simp [monitorStep, handle_muse_success_eq, hc, hl, hch, ht,
                  isFocusEvent, connMsg, focusMsg]
      · cases hc : s.connected <;>
          simp [monitorStep, handle_muse_success_eq, hc, hl, isFocusEvent, connMsg]
  · intro s m
    simp [receive_message]
  · intro b
    cases b <;> simp [websocketGreeting, isFocusEvent, connMsg, disconnMsg]

/-- C10: `get_service_status` returns the state unchanged (it mutates
nothing), reports the constant `true` for both server fields in every state,
and reports `extension_connected` exactly when the broadcast channel has at
least one receiver. -/
theorem C10_service_status :
    ∀ (s : MonitorState) (rc : Nat),
      (get_service_status s rc).2 = s ∧
      (get_service_status s rc).1.http_server = true ∧
      (get_service_status s rc).1.websocket_server = true ∧
      ((get_service_status s rc).1.extension_connected = true ↔ 0 < rc) ∧
      (get_service_status s rc).1.messages_received = s.message_count ∧
      (get_service_status s rc).1.muse_connected = s.connected := by
  intro s rc
  refine ⟨rfl, rfl, rfl, ?_, rfl, rfl⟩
  simp [get_service_status]

theorem C10_service_status_witness :
    (get_service_status initState 1).2 = initState ∧
    (get_service_status initState 1).1.extension_connected = true ∧
    (get_service_status initState 0).1.http_server = true :=
  ⟨(C10_service_status initState 1).1,
   (C10_service_status initState 1).2.2.2.1.mpr (by decide),
   (C10_service_status initState 0).2.1⟩

lemma substrAt_iff (pat : List Char) : ∀ s : List Char,
    (substrAt pat s = true ↔ ∃ t, s = pat ++ t) := by
  induction pat with
  | nil => intro s; simp [substrAt]
  | cons p ps ih =>
    intro s
    cases s with
    | nil => simp [substrAt]
    | cons c cs =>
      simp [substrAt, ih, List.cons.injEq]
      exact fun x _ => eq_comm

lemma containsSubList_iff (pat : List Char) : ∀ s : List Char,
    (containsSubList pat s = true ↔ ∃ p q, s = p ++ pat ++ q) := by
  intro s
  induction s with
  | nil =>
    simp only [containsSubList, substrAt_iff]
    constructor
    · rintro ⟨t, ht⟩
      exact ⟨[], t, ht⟩
    · rintro ⟨p, q, h⟩
      have h1 := List.append_eq_nil.mp h.symm
      have h2 := List.append_eq_nil.mp h1.1
      exact ⟨q, by simp [h2.2, h1.2]⟩
  | cons c t ih =>
    simp only [containsSubList, Bool.or_eq_true, substrAt_iff, ih]
    constructor
    · rintro (⟨u, hu⟩ | ⟨p, q, h⟩)
      · exact ⟨[], u, by simp [hu]⟩
      · exact ⟨c :: p, q, by simp [h]⟩
    · rintro ⟨p, q, h⟩
      cases p with
      | nil => exact Or.inl ⟨q, by simpa using h⟩
      | cons x xs =>
        simp only [List.cons_append, List.cons.injEq] at h
        exact Or.inr ⟨xs, q, h.2⟩

/-- C5: the derived coarse focus label is "unfocused" exactly when the
lowercased raw label contains "unfocused" or "low" as a contiguous
substring, and "focused" otherwise; moreover the six sample labels map as the
claim lists them. -/
theorem C5_coarse_label :
    (∀ label : String,
       (coarseFocusLabel label = "unfocused" ↔
         (IsSubstrP "unfocused" (lowerChars label) ∨
          IsSubstrP "low" (lowerChars label))) ∧
       (coarseFocusLabel label = "unfocused" ∨ coarseFocusLabel label = "focused")) ∧
    coarseFocusLabel "UNFOCUSED" = "unfocused" ∧
    coarseFocusLabel "low focus" = "unfocused" ∧
    coarseFocusLabel "Unfocused-Low" = "unfocused" ∧
    coarseFocusLabel "High" = "focused" ∧
    coarseFocusLabel "Focused" = "focused" ∧
    coarseFocusLabel "Neutral" = "focused" := by
  refine ⟨?_, by decide, by decide, by decide, by decide, by decide, by decide⟩
  intro label
  constructor
  · by_cases h : (containsSubList "unfocused".data (lowerChars label)
        || containsSubList "low".data (lowerChars label)) = true
    · simp only [coarseFocusLabel, h, if_true]
      rcases Bool.or_eq_true_iff.mp h with h1 | h1
      · exact iff_of_true trivial (Or.inl ((containsSubList_iff _ _).mp h1))
      · exact iff_of_true trivial (Or.inr ((containsSubList_iff _ _).mp h1))
    · simp only [coarseFocusLabel, h, if_false]
      rw [Bool.or_eq_true_iff] at h
      push_neg at h
      constructor
      · intro hne
        exact absurd hne (by decide)
      · rintro (hs | hs)
        · exact absurd ((containsSubList_iff _ _).mpr hs) h.1
        · exact absurd ((containsSubList_iff _ _).mpr hs) h.2
  · unfold coarseFocusLabel
    split
    · exact Or.inl rfl
    · exact Or.inr rfl

theorem C5_witness :
    IsSubstrP "unfocused" (lowerChars "UNFOCUSED") ∨
      IsSubstrP "low" (lowerChars "UNFOCUSED") :=
  ((C5_coarse_label.1 "UNFOCUSED").1).mp (by decide)

lemma drop_append_drop {α : Type} (l m : List α) (d k : Nat) (hd : d ≤ l.length) :
    (l.drop d ++ m).drop k = (l ++ m).drop (d + k) := by
  rw [← List.drop_append_of_le_length hd, List.drop_drop, Nat.add_comm]

lemma publish_length_le (cap : Nat) (buf : List DuckMessage) (e : DuckMessage)
    (hcap : 1 ≤ cap) : (publish cap buf e).length ≤ cap := by
  simp only [publish, List.length_drop, List.length_append, List.length_cons,
    List.length_nil]
  omega

lemma publishAll_eq (cap : Nat) (hcap : 1 ≤ cap) :
    ∀ (es buf : List DuckMessage), buf.length ≤ cap →
      publishAll cap buf es = (buf ++ es).drop (buf.length + es.length - cap) := by
  intro es
  induction es with
  | nil =>
    intro buf h
    simp [publishAll, Nat.sub_eq_zero_of_le h]
  | cons e es ih =>
    intro buf h
    have hstep : publishAll cap buf (e :: es) = publishAll cap (publish cap buf e) es := by
      simp [publishAll]
    rw [hstep, ih (publish cap buf e) (publish_length_le cap buf e hcap)]
    simp only [publish]
    rw [drop_append_drop _ es _ _ (by simp)]
    have hidx : (buf ++ [e]).length - cap +
        (((buf ++ [e]).drop ((buf ++ [e]).length - cap)).length + es.length - cap)
        = buf.length + (e :: es).length - cap := by
      simp only [List.length_drop, List.length_append, List.length_cons,
        List.length_nil]
      omega
    rw [hidx]
    simp

/-- C7: with the fixed capacity 100 passed to the broadcast channel, a
subscriber that consumes nothing retains exactly the newest `cap` published
events in publication order (the general first conjunct: the buffer is
always the publication list with its oldest surplus dropped); in particular
publishing 150 events leaves exactly the last 100. -/
theorem C7_broadcast_lossy :
    (∀ es : List DuckMessage,
       publishAll BROADCAST_CAPACITY subscribeBuffer es =
         es.drop (es.length - BROADCAST_CAPACITY)) ∧
    (∀ es : List DuckMessage, es.length = 150 →
       publishAll BROADCAST_CAPACITY subscribeBuffer es = es.drop 50 ∧
       (publishAll BROADCAST_CAPACITY subscribeBuffer es).length = 100) := by
  have hgen : ∀ es : List DuckMessage,
      publishAll BROADCAST_CAPACITY subscribeBuffer es =
        es.drop (es.length - BROADCAST_CAPACITY) := by
    intro es
    have h := publishAll_eq BROADCAST_CAPACITY (by decide) es subscribeBuffer
      (by simp [subscribeBuffer])
    simpa [subscribeBuffer] using h
  refine ⟨hgen, ?_⟩
  intro es hlen
  refine ⟨?_, ?_⟩
  · rw [hgen es, hlen]
    norm_num [BROADCAST_CAPACITY]
  · rw [hgen es, hlen]
    simp [BROADCAST_CAPACITY, hlen]

theorem C7_witness :
    publishAll BROADCAST_CAPACITY subscribeBuffer (List.replicate 150 connMsg) =
      (List.replicate 150 connMsg).drop 50 :=
  (C7_broadcast_lossy.2 (List.replicate 150 connMsg) (by simp)).1

lemma discoverLoop_spec (resp : Nat → ProbeOutcome) : ∀ ports : List Nat,
    (discoverLoop resp ports).1 = ports.find? (fun p => probeOk (resp p)) ∧
    List.Sublist (discoverLoop resp ports).2 ports := by
  intro ports
  induction ports with
  | nil => simp [discoverLoop]
  | cons p ps ih =>
    cases hr : resp p with
    | ok b =>
      cases b
      · simp [discoverLoop, hr, List.find?, probeOk, ih.1]
        exact ih.2
      · simp [discoverLoop, hr, List.find?, probeOk]
    | err =>
      simp [discoverLoop, hr, List.find?, probeOk, ih.1]
      exact ih.2

/-- C8: the source locator probes the fixed candidate list in order, one
request per candidate (the probe log is a duplicate-free sublist of the
candidate list), returns the first candidate whose response has a success
status, and returns none exactly when no candidate answers with a success
status. -/
theorem C8_discover :
    ∀ resp : Nat → ProbeOutcome,
      ((discover_muse_port resp).1
         = MUSE_API_PORTS.find? (fun p => probeOk (resp p))) ∧
      ((discover_muse_port resp).1 = none ↔
         ∀ p ∈ MUSE_API_PORTS, probeOk (resp p) = false) ∧
      (discover_muse_port resp).2.Nodup ∧
      List.Sublist (discover_muse_port resp).2 MUSE_API_PORTS := by
  intro resp
  have h := discoverLoop_spec resp MUSE_API_PORTS
  refine ⟨h.1, ?_, ?_, h.2⟩
  · rw [show (discover_muse_port resp).1
        = (discoverLoop resp MUSE_API_PORTS).1 from rfl, h.1]
    rw [List.find?_eq_none]
    constructor
    · intro hall p hp
      simpa using hall p hp
    · intro hall p hp
      simp [hall p hp]
  · exact List.Sublist.nodup h.2 (by decide)

theorem C8_witness :
    ((discover_muse_port
        (fun p => if p = 5002 then ProbeOutcome.ok true else ProbeOutcome.err)).1
      = some 5002) ∧
    (discover_muse_port (fun _ => ProbeOutcome.err)).1 = none := by
  constructor
  · rw [(C8_discover
      (fun p => if p = 5002 then ProbeOutcome.ok true else ProbeOutcome.err)).1]
    decide
  · exact (C8_discover (fun _ => ProbeOutcome.err)).2.1.mpr (by decide)
